import Mathlib

/-!
Shallow embedding of the `api_yamdb` review-platform backend
(`api/serializers.py`, `api/views.py`, `reviews/models.py`,
`reviews/validators.py`) and proofs about its API behaviour.

Records model database rows; API handlers become pure functions from a
database state and a request to an HTTP status, a response body and the
new database state.  HTTP statuses are plain numerals (200, 400, 401,
403, 404).
-/

namespace YaMDb

/-- A row of the custom `User` model (`reviews/models.py`): username,
unique email, profile fields and a role string
(`'user' | 'moderator' | 'admin'`). -/
structure UserRec where
  username : String
  email : String
  firstName : String
  lastName : String
  bio : String
  role : String
  deriving Repr, DecidableEq

/-- A row of the `Category` model: name and unique slug. -/
structure CategoryRec where
  id : Nat
  name : String
  slug : String
  deriving Repr, DecidableEq

/-- A row of the `Genre` model: name and unique slug. -/
structure GenreRec where
  id : Nat
  name : String
  slug : String
  deriving Repr, DecidableEq

/-- A row of the `Title` model.  `rating` embeds the *stored* integer
column `Title.rating` (`models.IntegerField(null=True, default=None)`,
`reviews/models.py` lines 118-122); it is a real database column,
distinct from the aggregate computed by `TitleViewSet`'s annotation.
`genreIds` embeds the title's `GenreTitle` join rows. -/
structure TitleRec where
  id : Nat
  name : String
  year : Int
  rating : Option Int
  description : Option String
  categoryId : Option Nat
  genreIds : List Nat := []
  deriving Repr, DecidableEq

/-- A row of the `Review` model: FK to title and author, text and an
integer score. -/
structure ReviewRec where
  id : Nat
  titleId : Nat
  authorId : Nat
  text : String
  score : Int
  deriving Repr, DecidableEq

/-- A row of the `Comment` model: FK to review and author. -/
structure CommentRec where
  id : Nat
  reviewId : Nat
  authorId : Nat
  text : String
  deriving Repr, DecidableEq

/-- The relational store the handlers read and mutate. -/
structure DB where
  users : List UserRec
  titles : List TitleRec
  reviews : List ReviewRec
  comments : List CommentRec
  categories : List CategoryRec := []
  genres : List GenreRec := []
  deriving Repr, DecidableEq

/-- `User.objects.filter(username=...)` nonempty: the `UniqueValidator`
on `UserCreateSerializer.username` / `UserSerializer.username`. -/
def usernameTaken (db : DB) (name : String) : Bool :=
  db.users.any (fun u => u.username == name)

/-- `User.objects.filter(email=...)` nonempty: the `UniqueValidator` on
the serializers' `email` field. -/
def emailTaken (db : DB) (e : String) : Bool :=
  db.users.any (fun u => u.email == e)

/-- `get_object_or_404(User, username=...)` lookup. -/
def findUser (db : DB) (name : String) : Option UserRec :=
  db.users.find? (fun u => u.username == name)

/-- `Title.objects.filter(pk=title_id)` nonempty. -/
def titleExists (db : DB) (titleId : Nat) : Bool :=
  db.titles.any (fun t => t.id == titleId)

/-- `Category.objects.all()` slug lookup, as `SlugRelatedField` resolves
a submitted category slug. -/
def findCategory (db : DB) (slug : String) : Option CategoryRec :=
  db.categories.find? (fun c => c.slug == slug)

/-- `Genre.objects.all()` slug lookup, as the many-valued
`SlugRelatedField` resolves each submitted genre slug. -/
def findGenre (db : DB) (slug : String) : Option GenreRec :=
  db.genres.find? (fun g => g.slug == slug)

/-- `Review.objects.filter(id=review_id)` nonempty. -/
def reviewExistsById (db : DB) (reviewId : Nat) : Bool :=
  db.reviews.any (fun r => r.id == reviewId)

/-- `Review.objects.filter(title=title, author=author).exists()` - the
application-level duplicate check in `ReviewSerializer.validate`. -/
def reviewExists (db : DB) (titleId authorId : Nat) : Bool :=
  db.reviews.any (fun r => r.titleId == titleId && r.authorId == authorId)

/-! ## Signup (`user_create`, `UserCreateSerializer`) -/

/-- Python `str.lower()` (on the ASCII usernames at issue): lower-case
every character. -/
def strLower (s : String) : String :=
  String.mk (s.data.map Char.toLower)

/-- `UserCreateSerializer.validate_username`: rejects any letter case of
`"me"` via `value.lower() == 'me'`. -/
def signupUsernameMeBanned (username : String) : Bool :=
  strLower username == "me"

/-- `UserCreateSerializer.is_valid()`: the two `UniqueValidator`s on
`username` and `email` plus `validate_username`. -/
def userCreateSerializerValid (db : DB) (username email : String) : Bool :=
  !usernameTaken db username && !emailTaken db email
    && !signupUsernameMeBanned username

/-- Response body of a successful signup: `serializer.data`, i.e. the
`email` and `username` fields that were submitted. -/
structure SignupBody where
  email : String
  username : String
  deriving Repr, DecidableEq

/-- Fresh `User` row created by `serializer.save()` on signup: only
`email` and `username` are accepted, `role` takes the model default
`'user'`, the other profile fields are blank. -/
def newSignupUser (username email : String) : UserRec :=
  { username := username, email := email, firstName := "", lastName := ""
    bio := "", role := "user" }

/-- `user_create` (`api/views.py` lines 108-126): validate, save, mail a
confirmation code (external transport, no state here), and answer
`Response(serializer.data, status=HTTP_200_OK)`; a validation failure
raises out as HTTP 400. -/
def user_create (db : DB) (username email : String) :
    (Nat × Option SignupBody) × DB :=
  if userCreateSerializerValid db username email then
    ((200, some { email := email, username := username }),
      { db with users := newSignupUser username email :: db.users })
  else
    ((400, none), db)

/-! ## Token exchange (`get_token`) -/

/-- `get_token` (`api/views.py` lines 129-145): look the user up by
username (`get_object_or_404` - 404 when absent), check the confirmation
code against the user's current state
(`default_token_generator.check_token`, an external stateful check,
passed in as `checkToken`), and either answer 200 with the signed access
token (`AccessToken.for_user`, passed in as `mkToken`) or 400. -/
def get_token (checkToken : UserRec → String → Bool)
    (mkToken : UserRec → String) (db : DB) (username code : String) :
    Nat × Option String :=
  match findUser db username with
  | none => (404, none)
  | some u =>
    if checkToken u code then (200, some (mkToken u)) else (400, none)

/-! ## Reviews: score validation, duplicate check, storage constraint -/

/-- The serializer field
`score = serializers.IntegerField(max_value=10, min_value=1)`
(`api/serializers.py` line 81): accepts exactly the closed interval
[1, 10]. -/
def scoreFieldValid (s : Int) : Bool :=
  1 ≤ s && s ≤ 10

/-- The storage-layer rule declared by
`UniqueConstraint(fields=['author', 'title'], name='unique_review')`
(`reviews/models.py` lines 200-204): a row may be inserted only when no
existing row shares its `(author, title)` pair.  `none` is the
`IntegrityError` the database raises on violation. -/
def dbInsertReview (db : DB) (r : ReviewRec) : Option DB :=
  if reviewExists db r.titleId r.authorId then none
  else some { db with reviews := r :: db.reviews }

/-- All stored reviews have score in [1, 10]. -/
def allScoresBounded (db : DB) : Bool :=
  db.reviews.all (fun r => scoreFieldValid r.score)

/-- POST `/titles/{title_id}/reviews/` after permissions pass
(`ReviewViewSet.perform_create` + `ReviewSerializer`): field validation
bounds the score (400 on failure), `validate` fetches the title with
`get_object_or_404` (404 when absent) and rejects a duplicate
`(title, author)` review with `ValidationError` (400), then
`serializer.save(author=..., title=...)` inserts the row, subject to the
storage unique constraint.  Returns the HTTP status and the new state. -/
def reviewCreate (db : DB) (authorId titleId : Nat) (text : String)
    (score : Int) (newId : Nat) : Nat × DB :=
  if !scoreFieldValid score then (400, db)
  else if !titleExists db titleId then (404, db)
  else if reviewExists db titleId authorId then (400, db)
  else
    match dbInsertReview db
        { id := newId, titleId := titleId, authorId := authorId
          text := text, score := score } with
    | some db1 => (201, db1)
    | none => (500, db)

/-- PATCH of an existing review's score (`ReviewViewSet` update path):
the same serializer field bounds the new score; on success the stored
row's score is replaced. -/
def reviewUpdateScore (db : DB) (reviewId : Nat) (score : Int) :
    Nat × DB :=
  if !scoreFieldValid score then (400, db)
  else if !reviewExistsById db reviewId then (404, db)
  else
    (200,
      { db with
          reviews := db.reviews.map (fun r =>
            if r.id == reviewId then { r with score := score } else r) })

/-! ## Title rating -/

/-- Scores of the reviews attached to a title: the join behind
`annotate(Avg('reviews__score'))` in `TitleViewSet.queryset`. -/
def titleScores (db : DB) (titleId : Nat) : List Int :=
  (db.reviews.filter (fun r => r.titleId == titleId)).map (fun r => r.score)

/-- SQL `Avg` over the joined scores: `NULL` when there is no review,
otherwise the exact arithmetic mean as a rational. -/
def sqlAvg (scores : List Int) : Option ℚ :=
  if scores.isEmpty then none
  else some ((scores.sum : ℚ) / (scores.length : ℚ))

/-- Python `int(x)` applied to a float: truncation toward zero. -/
def pythonInt (q : ℚ) : Int :=
  if 0 ≤ q then ⌊q⌋ else -⌊-q⌋

/-- The `rating` field of `ListRetrieveTitleSerializer`
(`api/serializers.py` lines 45-47):
`serializers.IntegerField(source='reviews__score__avg', read_only=True)`.
DRF represents a `None` attribute as `null` and otherwise runs
`IntegerField.to_representation`, which is `int(value)`. -/
def listRetrieveRating (db : DB) (titleId : Nat) : Option Int :=
  (sqlAvg (titleScores db titleId)).map pythonInt

/-- Stated from the spec's words, for comparison: «compute the
arithmetic mean of `score` across all associated reviews (no reviews →
null/absent rating)» - the exact rational mean. -/
def specMeanRating (db : DB) (titleId : Nat) : Option ℚ :=
  sqlAvg (titleScores db titleId)

/-- The `rating` member of the representation produced by
`TitleSerializer` (`fields = '__all__'`, used for create / update /
destroy): the model field is not overridden, so the *stored* column
`Title.rating` is read. -/
def titleSerializerRating (t : TitleRec) : Option Int :=
  t.rating

/-- POST `/titles/` through `TitleSerializer` (`api/serializers.py`
lines 29-40, `fields = '__all__'`).  Validation: `category` is a
required `SlugRelatedField` that must resolve against
`Category.objects.all()`; `genre` is a required many-valued
`SlugRelatedField` (an empty list is allowed) whose every slug must
resolve against `Genre.objects.all()`; `name` carries the model's
`max_length=200`; `year` carries the model's `validate_year` bound
against the current year (`currentYear` here).  Any failure answers
400 with the store unchanged.  On success the editable stored `rating`
column is persisted exactly as submitted and the response body's rating
is `titleSerializerRating` of the saved row. -/
def titleCreate (db : DB) (currentYear : Int) (newId : Nat)
    (name : String) (year : Int) (rating : Option Int)
    (description : Option String) (categorySlug : String)
    (genreSlugs : List String) : (Nat × Option Int) × DB :=
  match findCategory db categorySlug with
  | none => ((400, none), db)
  | some c =>
    if !genreSlugs.all (fun s => (findGenre db s).isSome) then ((400, none), db)
    else if name.length > 200 then ((400, none), db)
    else if currentYear < year then ((400, none), db)
    else
      let t : TitleRec :=
        { id := newId, name := name, year := year, rating := rating
          description := description, categoryId := some c.id
          genreIds := genreSlugs.filterMap
            (fun s => (findGenre db s).map (fun g => g.id)) }
      ((201, titleSerializerRating t), { db with titles := t :: db.titles })

/-! ## Nested-endpoint dispatch (DRF `APIView.dispatch` semantics) -/

/-- HTTP methods the nested routers accept. -/
inductive Method where
  | get | post | patch | delete
  deriving Repr, DecidableEq

/-- `rest_framework.permissions.SAFE_METHODS` membership. -/
def isSafeMethod : Method → Bool
  | .get => true
  | _ => false

/-- A request as the permission layer sees it. -/
structure Req where
  method : Method
  authenticated : Bool
  deriving Repr, DecidableEq

/-- Modelled from the spec: `api/permissions.py`
(`ReviewAndCommentPermission`) is not in the source tree.  Spec §4.2:
«Review/Comment: read always allowed; create requires any authenticated
user; update/delete requires requester to be the resource's author, OR
have role ∈ {moderator, admin}» - so the view-level `has_permission`
admits safe methods for everyone and writes only for authenticated
users (ownership is an object-level check made later). -/
def reviewAndCommentHasPermission (req : Req) : Bool :=
  isSafeMethod req.method || req.authenticated

/-- The raw body of a review POST before field validation: `text` and
`score` are the writable serializer fields and both are required, so
each may be absent. -/
structure ReviewBody where
  text : Option String
  score : Option Int
  deriving Repr, DecidableEq

/-- `ReviewSerializer.to_internal_value` succeeds: both required fields
present and the score inside the `IntegerField(max_value=10,
min_value=1)` bounds. -/
def reviewBodyFieldsValid (b : ReviewBody) : Bool :=
  b.text.isSome &&
    (match b.score with
     | none => false
     | some s => scoreFieldValid s)

/-- GET `/titles/{title_id}/reviews/` (`ReviewViewSet`):
`APIView.initial` runs `check_permissions` first - a denial surfaces as
401 for anonymous callers and 403 otherwise - then the list handler's
`get_queryset` runs `get_object_or_404(Title, ...)`, the 404 for a
missing parent title. -/
def reviewListDispatch (db : DB) (authenticated : Bool) (titleId : Nat) :
    Nat :=
  if reviewAndCommentHasPermission
      { method := .get, authenticated := authenticated } then
    if titleExists db titleId then 200 else 404
  else if authenticated then 403
  else 401

/-- POST `/titles/{title_id}/reviews/` (`ReviewViewSet`): permission
check first (401 anonymous / 403 otherwise on denial); then
`CreateModelMixin.create` runs `serializer.is_valid`, whose
`to_internal_value` rejects a missing required field with 400 *before*
`ReviewSerializer.validate` runs `get_object_or_404(Title, ...)`; the
rest of the pipeline (score bound 400, missing title 404, duplicate
400, insert) is `reviewCreate`. -/
def reviewPostDispatch (db : DB) (authenticated : Bool)
    (authorId titleId : Nat) (b : ReviewBody) (newId : Nat) : Nat × DB :=
  if reviewAndCommentHasPermission
      { method := .post, authenticated := authenticated } then
    match b.text, b.score with
    | some txt, some s => reviewCreate db authorId titleId txt s newId
    | _, _ => (400, db)
  else if authenticated then (403, db)
  else (401, db)

/-- GET `/titles/{title_id}/reviews/{review_id}/comments/`
(`CommentViewSet`): permission check first, then the list handler's
`get_queryset` runs `get_object_or_404(Review, id=review_id)`. -/
def commentListDispatch (db : DB) (authenticated : Bool)
    (reviewId : Nat) : Nat :=
  if reviewAndCommentHasPermission
      { method := .get, authenticated := authenticated } then
    if reviewExistsById db reviewId then 200 else 404
  else if authenticated then 403
  else 401

/-- POST `.../comments/` (`CommentViewSet`): permission check first;
then `serializer.is_valid` rejects a missing required `text` with 400;
only then does `perform_create` run
`get_object_or_404(Review, id=review_id)` - the 404 for a missing
parent review - before inserting the comment. -/
def commentPostDispatch (db : DB) (authenticated : Bool)
    (authorId reviewId : Nat) (text : Option String) (newId : Nat) :
    Nat × DB :=
  if reviewAndCommentHasPermission
      { method := .post, authenticated := authenticated } then
    match text with
    | none => (400, db)
    | some txt =>
      if !reviewExistsById db reviewId then (404, db)
      else
        (201, { db with
                  comments := { id := newId, reviewId := reviewId
                                authorId := authorId, text := txt }
                    :: db.comments })
  else if authenticated then (403, db)
  else (401, db)

/-! ## `/users/me/` (`UserViewSet.get_patch_me`, `MeSerializer`) -/

/-- The representation `MeSerializer` serialises: the six declared
fields of the user row. -/
structure MeBody where
  username : String
  email : String
  firstName : String
  lastName : String
  bio : String
  role : String
  deriving Repr, DecidableEq

/-- `MeSerializer(user)` representation. -/
def meRepr (u : UserRec) : MeBody :=
  { username := u.username, email := u.email, firstName := u.firstName
    lastName := u.lastName, bio := u.bio, role := u.role }

/-- A partial PATCH body for `/users/me/`: each field optionally
submitted.  A submitted `role` is carried here so that the handler's
treatment of it can be stated. -/
structure MePatch where
  username : Option String := none
  email : Option String := none
  firstName : Option String := none
  lastName : Option String := none
  bio : Option String := none
  role : Option String := none
  deriving Repr, DecidableEq

/-- `MeSerializer(user, data=..., partial=True).save()`:
`read_only_fields = ('role',)` drops any submitted role before update;
every other submitted field overwrites the stored one. -/
def meSerializerUpdate (u : UserRec) (d : MePatch) : UserRec :=
  { username := d.username.getD u.username
    email := d.email.getD u.email
    firstName := d.firstName.getD u.firstName
    lastName := d.lastName.getD u.lastName
    bio := d.bio.getD u.bio
    role := u.role }

/-- Field validation `MeSerializer` runs on a partial update: the
model-level validators of the touched fields - uniqueness of
`username` / `email` against other rows and the model's
`validate_username` ban of the literal `"me"`
(`reviews/validators.py` lines 11-14). -/
def meUpdateValid (db : DB) (u : UserRec) (d : MePatch) : Bool :=
  (match d.username with
   | none => true
   | some name =>
     !(db.users.any (fun v => v.username == name && v.email != u.email))
       && name != "me")
  && (match d.email with
      | none => true
      | some e => !(db.users.any (fun v => v.email == e && v.email != u.email)))

/-- `GET /users/me/`: `get_object_or_404` on the caller's own username,
then `Response(MeSerializer(user).data, 200)`. -/
def getMe (db : DB) (callerUsername : String) : Nat × Option MeBody :=
  match findUser db callerUsername with
  | none => (404, none)
  | some u => (200, some (meRepr u))

/-- `PATCH /users/me/`: validate, `serializer.save()` replaces the
caller's row, and the updated representation is returned with 200. -/
def patchMe (db : DB) (callerUsername : String) (d : MePatch) :
    (Nat × Option MeBody) × DB :=
  match findUser db callerUsername with
  | none => ((404, none), db)
  | some u =>
    if meUpdateValid db u d then
      let u1 := meSerializerUpdate u d
      ((200, some (meRepr u1)),
        { db with
            users := db.users.map (fun v =>
              if v.username == u.username then u1 else v) })
    else ((400, none), db)

/-! ## Admin user management (`UserViewSet`, `UserSerializer`) -/

/-- `UserSerializer.is_valid()` for a create (`api/serializers.py`
lines 130-153): `username` is *redeclared* as a plain
`serializers.CharField(validators=[UniqueValidator(...)], required
=True)`, which replaces the auto-generated model field - so the model's
`validate_username` (ban of `"me"`) and the slug pattern are not run;
only the two uniqueness checks remain. -/
def userSerializerValid (db : DB) (username email : String) : Bool :=
  !usernameTaken db username && !emailTaken db email

/-- Admin `POST /users/` (`UserViewSet` create with `UserSerializer`):
validation as above, then `serializer.save()` inserts the row without
calling the model's `full_clean`, so no model validator runs either. -/
def adminUserCreate (db : DB) (username email firstName lastName bio
    role : String) : Nat × DB :=
  if userSerializerValid db username email then
    (201,
      { db with
          users :=
            { username := username, email := email, firstName := firstName
              lastName := lastName, bio := bio, role := role } :: db.users })
  else (400, db)

/-! ## Sample states used by witnesses and counterexamples -/

/-- The empty store. -/
def dbEmpty : DB :=
  { users := [], titles := [], reviews := [], comments := [] }

/-- A registered user. -/
def uAlice : UserRec :=
  { username := "alice", email := "alice@x.io", firstName := ""
    lastName := "", bio := "", role := "user" }

/-- A title with id 1. -/
def tDune : TitleRec :=
  { id := 1, name := "Dune", year := 1965, rating := none
    description := none, categoryId := none }

/-- State with one title and one review (author 7, title 1, score 8). -/
def dbOneReview : DB :=
  { users := [uAlice], titles := [tDune]
    reviews := [{ id := 1, titleId := 1, authorId := 7
                  text := "good", score := 8 }]
    comments := [] }

/-! ## C1 -/

/-- C1: when a review by `author` on `title` already exists, a second
review-creation POST by the same author on the same title answers
HTTP 400 and leaves the store unchanged (the application-level
existence check in `ReviewSerializer.validate`), and independently the
storage-layer unique constraint on `(author, title)` refuses to insert
any such row. -/
theorem C1_review_unique_per_author_title (db : DB) (a t : Nat)
    (txt : String) (s : Int) (nid : Nat)
    (htitle : titleExists db t = true)
    (hdup : reviewExists db t a = true) :
    reviewCreate db a t txt s nid = (400, db) ∧
      ∀ r : ReviewRec, r.titleId = t → r.authorId = a →
        dbInsertReview db r = none := by
  refine ⟨?_, ?_⟩
  · unfold reviewCreate
    cases hs : scoreFieldValid s with
    | false => simp
    | true => simp [htitle, hdup]
  · intro r h1 h2
    unfold dbInsertReview
    rw [h1, h2, hdup]
    simp

/-- Witness for C1 at a concrete state: author 7 already reviewed
title 1 in `dbOneReview`. -/
theorem C1_witness :
    reviewCreate dbOneReview 7 1 "again" 9 2 = (400, dbOneReview) ∧
      dbInsertReview dbOneReview
        { id := 2, titleId := 1, authorId := 7, text := "again"
          score := 9 } = none := by
  have h := C1_review_unique_per_author_title dbOneReview 7 1 "again" 9 2
    (by decide) (by decide)
  exact ⟨h.1, h.2 _ rfl rfl⟩

/-! ## C5 -/

/-- C5: a signup whose username lower-cases to `"me"` (so `"me"`,
`"Me"`, `"ME"`, ...) answers HTTP 400 and creates no user: the store is
returned unchanged. -/
theorem C5_signup_me_always_400 (db : DB) (username email : String)
    (h : strLower username = "me") :
    user_create db username email = ((400, none), db) := by
  unfold user_create userCreateSerializerValid signupUsernameMeBanned
  rw [h]
  simp

/-- Witness for C5 at the concrete username `"Me"`. -/
theorem C5_witness :
    user_create dbEmpty "Me" "me@x.io" = ((400, none), dbEmpty) :=
  C5_signup_me_always_400 dbEmpty "Me" "me@x.io" (by decide)

/-! ## C9 -/

/-- C9: a signup that passes validation answers HTTP 200 (not 201),
its body echoes exactly the submitted `{username, email}`, and the new
user row is stored. -/
theorem C9_signup_200_echoes_identity (db : DB) (username email : String)
    (hv : userCreateSerializerValid db username email = true) :
    user_create db username email =
      ((200, some { email := email, username := username }),
        { db with users := newSignupUser username email :: db.users }) := by
  unfold user_create
  rw [hv]
  simp

/-- Witness for C9: a fresh signup on the empty store. -/
theorem C9_witness :
    user_create dbEmpty "alice" "alice@x.io" =
      ((200, some { email := "alice@x.io", username := "alice" }),
        { dbEmpty with users := [newSignupUser "alice" "alice@x.io"] }) :=
  C9_signup_200_echoes_identity dbEmpty "alice" "alice@x.io" (by decide)

/-! ## C10 -/

/-- C10: the `"me"` ban is enforced only on the signup path.
`UserSerializer` redeclares `username` as a plain unique `CharField`,
so an admin `POST /users/` with username `"me"` succeeds (HTTP 201) and
stores the user, while the very same username is rejected by signup
with HTTP 400. -/
theorem C10_admin_create_me_loophole :
    adminUserCreate dbEmpty "me" "me@x.io" "" "" "" "user" =
      (201, { dbEmpty with
                users := [{ username := "me", email := "me@x.io"
                            firstName := "", lastName := "", bio := ""
                            role := "user" }] }) ∧
      usernameTaken
        (adminUserCreate dbEmpty "me" "me@x.io" "" "" "" "user").2
        "me" = true ∧
      user_create dbEmpty "me" "signup@x.io" = ((400, none), dbEmpty) := by
  refine ⟨by decide, by decide, ?_⟩
  unfold user_create userCreateSerializerValid signupUsernameMeBanned
  simp [show strLower "me" = "me" by decide]

/-! ## C4 -/

/-- C4: token exchange, for any external code check and token signer:
an unknown username answers HTTP 404; a known user with a
non-verifying confirmation code answers HTTP 400 (never 401); a
verifying code answers HTTP 200 carrying the signed access token. -/
theorem C4_token_exchange_statuses
    (check : UserRec → String → Bool) (mk : UserRec → String)
    (db : DB) (username code : String) :
    (findUser db username = none →
        get_token check mk db username code = (404, none)) ∧
      (∀ u, findUser db username = some u → check u code = false →
        get_token check mk db username code = (400, none)) ∧
      (∀ u, findUser db username = some u → check u code = true →
        get_token check mk db username code = (200, some (mk u))) := by
  refine ⟨?_, ?_, ?_⟩
  · intro h
    unfold get_token
    rw [h]
  · intro u hu hc
    unfold get_token
    rw [hu]
    simp [hc]
  · intro u hu hc
    unfold get_token
    rw [hu]
    simp [hc]

/-- Witness for C4: a concrete check accepting exactly `"good"` and a
concrete signer, exercised on the three branches. -/
theorem C4_witness :
    get_token (fun _ c => c == "good") (fun u => "tok-" ++ u.username)
        dbOneReview "nobody" "good" = (404, none) ∧
      get_token (fun _ c => c == "good") (fun u => "tok-" ++ u.username)
        dbOneReview "alice" "bad" = (400, none) ∧
      get_token (fun _ c => c == "good") (fun u => "tok-" ++ u.username)
        dbOneReview "alice" "good" = (200, some "tok-alice") := by
  have h := C4_token_exchange_statuses
    (fun _ c => c == "good") (fun u => "tok-" ++ u.username)
    dbOneReview
  exact ⟨(h "nobody" "good").1 (by decide),
    (h "alice" "bad").2.1 uAlice (by decide) (by decide),
    (h "alice" "good").2.2 uAlice (by decide) (by decide)⟩

/-! ## C8 -/

/-- C8: for a caller whose row is stored, `GET /users/me/` answers 200
with the caller's own profile; a valid `PATCH /users/me/` answers 200
with the updated profile in which the stored role is unchanged -
whatever role value the body submitted - while each other submitted
field takes the submitted value (and keeps the old one when absent). -/
theorem C8_me_get_patch (db : DB) (u : UserRec) (d : MePatch)
    (hu : findUser db u.username = some u)
    (hv : meUpdateValid db u d = true) :
    getMe db u.username = (200, some (meRepr u)) ∧
      (patchMe db u.username d).1 =
        (200, some (meRepr (meSerializerUpdate u d))) ∧
      (meSerializerUpdate u d).role = u.role ∧
      (meSerializerUpdate u d).bio = d.bio.getD u.bio ∧
      (meSerializerUpdate u d).firstName = d.firstName.getD u.firstName ∧
      (meSerializerUpdate u d).lastName = d.lastName.getD u.lastName := by
  refine ⟨?_, ?_, rfl, rfl, rfl, rfl⟩
  · unfold getMe
    rw [hu]
  · unfold patchMe
    rw [hu]
    simp [hv]

/-- Witness for C8: alice PATCHes `{"role": "admin", "bio": "hi"}`; the
result keeps role `"user"` and updates the bio. -/
theorem C8_witness :
    getMe dbOneReview "alice" = (200, some (meRepr uAlice)) ∧
      (patchMe dbOneReview "alice"
          { role := some "admin", bio := some "hi" }).1 =
        (200, some (meRepr (meSerializerUpdate uAlice
          { role := some "admin", bio := some "hi" }))) ∧
      (meSerializerUpdate uAlice
          { role := some "admin", bio := some "hi" }).role = "user" ∧
      (meSerializerUpdate uAlice
          { role := some "admin", bio := some "hi" }).bio = "hi" := by
  have h := C8_me_get_patch dbOneReview uAlice
    { role := some "admin", bio := some "hi" } (by decide) (by decide)
  exact ⟨h.1, h.2.1, h.2.2.1, h.2.2.2.1⟩

/-! ## C2 -/

/-- Title 1 carrying reviews with scores 8 and 9. -/
def dbTwoReviews89 : DB :=
  { users := [uAlice], titles := [tDune]
    reviews :=
      [{ id := 1, titleId := 1, authorId := 7, text := "a", score := 8 },
       { id := 2, titleId := 1, authorId := 8, text := "b", score := 9 }]
    comments := [] }

/-- Title 1 carrying reviews with scores 8 and 10. -/
def dbTwoReviews810 : DB :=
  { users := [uAlice], titles := [tDune]
    reviews :=
      [{ id := 1, titleId := 1, authorId := 7, text := "a", score := 8 },
       { id := 2, titleId := 1, authorId := 8, text := "b", score := 10 }]
    comments := [] }

/-- Counterexample to C2: with reviews scoring 8 and 9 the arithmetic
mean is 17/2, but the reported rating is the integer 8 - the
`IntegerField` representation truncates the average, so the reported
rating does not equal the arithmetic mean. -/
theorem C2_counterexample :
    listRetrieveRating dbTwoReviews89 1 = some 8 ∧
      specMeanRating dbTwoReviews89 1 = some ((17 : ℚ)/2) ∧
      ((8 : ℚ) ≠ (17 : ℚ)/2) := by
  have hs : titleScores dbTwoReviews89 1 = [8, 9] := by decide
  refine ⟨?_, ?_, by norm_num⟩
  · unfold listRetrieveRating sqlAvg
    rw [hs]
    norm_num [pythonInt]
  · unfold specMeanRating sqlAvg
    rw [hs]
    norm_num

/-- C2 as amended: on a store whose review scores all lie in [1, 10],
the reported rating is `null` exactly when the title has no reviews,
and otherwise equals the floor of the exact arithmetic mean (Python
`int()` truncation, which for these nonnegative means is the floor), so
it differs from the mean by less than 1. -/
theorem C2_rating_is_floor_of_mean (db : DB) (tid : Nat)
    (hb : allScoresBounded db = true) :
    (listRetrieveRating db tid = none ↔ specMeanRating db tid = none) ∧
      (∀ q : ℚ, specMeanRating db tid = some q →
        listRetrieveRating db tid = some ⌊q⌋ ∧
          (⌊q⌋ : ℚ) ≤ q ∧ q < ⌊q⌋ + 1) ∧
      (titleScores db tid = [] → listRetrieveRating db tid = none) := by
  have hlr : listRetrieveRating db tid =
      (specMeanRating db tid).map pythonInt := rfl
  refine ⟨?_, ?_, ?_⟩
  · rw [hlr]
    exact Option.map_eq_none'
  · intro q hq
    have hq0 : 0 ≤ q := by
      have hmem : ∀ x ∈ titleScores db tid, (1 : Int) ≤ x := by
        intro x hx
        unfold titleScores at hx
        rw [List.mem_map] at hx
        obtain ⟨r, hr, hrx⟩ := hx
        rw [List.mem_filter] at hr
        unfold allScoresBounded at hb
        rw [List.all_eq_true] at hb
        have h2 := hb r hr.1
        unfold scoreFieldValid at h2
        simp only [Bool.and_eq_true, decide_eq_true_eq] at h2
        rw [← hrx]
        exact h2.1
      unfold specMeanRating sqlAvg at hq
      split at hq
      · exact absurd hq (by simp)
      · rw [Option.some_inj] at hq
        rw [← hq]
        apply div_nonneg
        · have hsum : (0 : Int) ≤ (titleScores db tid).sum :=
            List.sum_nonneg (fun x hx => le_trans zero_le_one (hmem x hx))
          exact_mod_cast hsum
        · positivity
    refine ⟨?_, Int.floor_le q, Int.lt_floor_add_one q⟩
    rw [hlr, hq]
    unfold pythonInt
    simp [hq0]
  · intro h
    rw [hlr]
    unfold specMeanRating sqlAvg
    rw [h]
    rfl

/-- Witness for C2 as amended: reviews [8, 10] report rating 9, and a
title with no reviews (in the empty store) reports `null`. -/
theorem C2_witness :
    listRetrieveRating dbTwoReviews810 1 = some 9 ∧
      listRetrieveRating dbEmpty 1 = none := by
  have h := C2_rating_is_floor_of_mean dbTwoReviews810 1 (by decide)
  have h0 := C2_rating_is_floor_of_mean dbEmpty 1 (by decide)
  have hs : titleScores dbTwoReviews810 1 = [8, 10] := by decide
  have hmean : specMeanRating dbTwoReviews810 1 = some ((9 : ℚ)) := by
    unfold specMeanRating sqlAvg
    rw [hs]
    norm_num
  have h9 := (h.2.1 9 hmean).1
  have : (⌊(9 : ℚ)⌋ : Int) = 9 := by norm_num
  rw [this] at h9
  exact ⟨h9, h0.2.2 (by decide)⟩

/-! ## C3 -/

/-- A stored category, slug `"books"`. -/
def catBooks : CategoryRec := { id := 1, name := "Books", slug := "books" }

/-- A store holding the `"books"` category and alice, but no title. -/
def dbWithCategory : DB :=
  { users := [uAlice], titles := [], reviews := [], comments := []
    categories := [catBooks] }

/-- Title 1 in category 1 with the *stored* rating column set to 5:
exactly the row `titleCreate` persists from a POST carrying
`rating: 5`, `category: "books"`, `genre: []`. -/
def tDuneRated5 : TitleRec :=
  { id := 1, name := "Dune", year := 1965, rating := some 5
    description := none, categoryId := some 1, genreIds := [] }

/-- A store in which title 1's stored rating column (5) has drifted
from its reviews (scores 8 and 10, mean 9). -/
def dbDrifted : DB :=
  { users := [uAlice], titles := [tDuneRated5]
    reviews :=
      [{ id := 1, titleId := 1, authorId := 7, text := "a", score := 8 },
       { id := 2, titleId := 1, authorId := 8, text := "b", score := 10 }]
    comments := [], categories := [catBooks] }

/-- Counterexample to C3: the rating IS stored - `Title.rating` is a
real column which a valid `POST /titles/` (existing category slug,
empty genre list) accepts and persists, and whose value the
create/update serializer (`fields = '__all__'`) displays - so after
reviews scoring 8 and 10 arrive, that read shows the stored 5 while
the reviews average to 9: a redundantly stored rating drifts from the
underlying reviews and is not recomputed on that read. -/
theorem C3_counterexample :
    titleCreate dbWithCategory 2026 1 "Dune" 1965 (some 5) none
        "books" [] =
      ((201, some 5), { dbWithCategory with titles := [tDuneRated5] }) ∧
      titleSerializerRating tDuneRated5 = some 5 ∧
      listRetrieveRating dbDrifted 1 = some 9 ∧
      titleSerializerRating tDuneRated5 ≠ listRetrieveRating dbDrifted 1 := by
  have hs : titleScores dbDrifted 1 = [8, 10] := by decide
  have h9 : listRetrieveRating dbDrifted 1 = some 9 := by
    unfold listRetrieveRating sqlAvg
    rw [hs]
    norm_num [pythonInt]
  refine ⟨by decide, rfl, h9, ?_⟩
  rw [h9]
  decide

/-- C3 as amended: only the list/retrieve representation recomputes the
rating from the review rows - it is unaffected by any value written to
the stored `Title.rating` column - while the create/update
representation reads exactly that stored column (which therefore can
drift). -/
theorem C3_only_list_retrieve_recomputes (db : DB) (tid : Nat)
    (v : Option Int) (t : TitleRec) :
    listRetrieveRating
        { db with
            titles := db.titles.map (fun t0 =>
              if t0.id == tid then { t0 with rating := v } else t0) }
        tid = listRetrieveRating db tid ∧
      titleSerializerRating { t with rating := v } = v :=
  ⟨rfl, rfl⟩

/-! ## C7 -/

/-- Counterexample to C7, refuting both halves of «produced before any
permission check or request-body validation»: in the empty store
(title 1 does not exist) an unauthenticated POST with a fully valid
body answers 401, not 404 - the permission check runs first - and an
authenticated POST whose body is missing its required `score` answers
400, not 404 - field validation also runs before the parent lookup. -/
theorem C7_counterexample :
    titleExists dbEmpty 1 = false ∧
      (reviewPostDispatch dbEmpty false 7 1
          { text := some "x", score := some 5 } 1).1 = 401 ∧
      (reviewPostDispatch dbEmpty false 7 1
          { text := some "x", score := some 5 } 1).1 ≠ 404 ∧
      (reviewPostDispatch dbEmpty true 7 1
          { text := some "x", score := none } 1).1 = 400 := by
  decide

/-- C7 as amended: the missing-parent 404 of the nested review and
comment endpoints is produced inside the handler, after the permission
check and after request-body field validation.  On a missing parent:
any read answers 404; an unauthenticated write answers 401; an
authenticated POST whose body fails field validation answers 400; and
an authenticated POST with a field-valid body answers 404. -/
theorem C7_parent_404_after_permission_and_fields (db : DB)
    (au : Bool) (a tid rid nid : Nat) (b : ReviewBody) (txt : String)
    (s : Int)
    (htitle : titleExists db tid = false)
    (hrev : reviewExistsById db rid = false) :
    (reviewListDispatch db au tid = 404 ∧
        commentListDispatch db au rid = 404) ∧
      ((reviewPostDispatch db false a tid b nid).1 = 401 ∧
        (commentPostDispatch db false a rid b.text nid).1 = 401) ∧
      (reviewBodyFieldsValid b = false →
        (reviewPostDispatch db true a tid b nid).1 = 400) ∧
      ((commentPostDispatch db true a rid none nid).1 = 400) ∧
      (scoreFieldValid s = true →
        (reviewPostDispatch db true a tid
            { text := some txt, score := some s } nid).1 = 404) ∧
      (commentPostDispatch db true a rid (some txt) nid).1 = 404 := by
  have hpg : ∀ x : Bool, reviewAndCommentHasPermission
      { method := .get, authenticated := x } = true := by
    intro x
    cases x <;> decide
  have hpt : reviewAndCommentHasPermission
      { method := .post, authenticated := true } = true := by decide
  have hpf : reviewAndCommentHasPermission
      { method := .post, authenticated := false } = false := by decide
  refine ⟨⟨?_, ?_⟩, ⟨?_, ?_⟩, ?_, ?_, ?_, ?_⟩
  · unfold reviewListDispatch
    rw [hpg au]
    simp [htitle]
  · unfold commentListDispatch
    rw [hpg au]
    simp [hrev]
  · unfold reviewPostDispatch
    rw [hpf]
    simp
  · unfold commentPostDispatch
    rw [hpf]
    simp
  · intro hbf
    unfold reviewPostDispatch
    rw [hpt]
    cases hbt : b.text with
    | none => simp [hbt]
    | some txt1 =>
      cases hbs : b.score with
      | none => simp [hbt, hbs]
      | some s1 =>
        have hsf : scoreFieldValid s1 = false := by
          unfold reviewBodyFieldsValid at hbf
          rw [hbt, hbs] at hbf
          simpa using hbf
        unfold reviewCreate
        simp [hbt, hbs, hsf]
  · unfold commentPostDispatch
    rw [hpt]
    simp
  · intro hsc
    unfold reviewPostDispatch reviewCreate
    rw [hpt]
    simp [hsc, htitle]
  · unfold commentPostDispatch
    rw [hpt]
    simp [hrev]

/-- Witness for C7 as amended, in the empty store: an anonymous GET on
a missing title 404s; an anonymous valid POST 401s; an authenticated
POST with score 11 (field-invalid) 400s; authenticated field-valid
POSTs to the missing title and to a missing review both 404. -/
theorem C7_witness :
    reviewListDispatch dbEmpty false 2 = 404 ∧
      (reviewPostDispatch dbEmpty false 7 2
          { text := some "x", score := some 5 } 1).1 = 401 ∧
      (reviewPostDispatch dbEmpty true 7 2
          { text := some "x", score := some 11 } 1).1 = 400 ∧
      (reviewPostDispatch dbEmpty true 7 2
          { text := some "x", score := some 5 } 1).1 = 404 ∧
      (commentPostDispatch dbEmpty true 7 2 (some "x") 1).1 = 404 := by
  have hf := C7_parent_404_after_permission_and_fields dbEmpty false 7 2 2 1
    { text := some "x", score := some 5 } "x" 5 (by decide) (by decide)
  have ht := C7_parent_404_after_permission_and_fields dbEmpty true 7 2 2 1
    { text := some "x", score := some 11 } "x" 5 (by decide) (by decide)
  exact ⟨hf.1.1, hf.2.1.1, ht.2.2.1 (by decide),
    ht.2.2.2.2.1 (by decide), ht.2.2.2.2.2⟩

/-! ## C6 -/

/-- C6: on a store whose stored scores already lie in [1, 10], with an
existing parent title and no duplicate review: a score outside [1, 10]
makes both review creation and review score update answer 400 and leave
the store unchanged; the boundary scores 1 and 10 are accepted by
creation (201); and both operations keep every stored review's score in
[1, 10]. -/
theorem C6_score_validated_in_1_10 (db : DB) (a t : Nat) (txt : String)
    (s : Int) (nid rid : Nat)
    (hb : allScoresBounded db = true)
    (htitle : titleExists db t = true)
    (hnodup : reviewExists db t a = false) :
    ((s < 1 ∨ 10 < s) →
        reviewCreate db a t txt s nid = (400, db) ∧
          reviewUpdateScore db rid s = (400, db)) ∧
      ((reviewCreate db a t txt 1 nid).1 = 201 ∧
        (reviewCreate db a t txt 10 nid).1 = 201) ∧
      allScoresBounded (reviewCreate db a t txt s nid).2 = true ∧
      allScoresBounded (reviewUpdateScore db rid s).2 = true := by
  have hcreate : ∀ sc : Int, scoreFieldValid sc = true →
      reviewCreate db a t txt sc nid =
        (201, { db with
                  reviews := { id := nid, titleId := t, authorId := a
                               text := txt, score := sc } :: db.reviews }) := by
    intro sc hsc
    unfold reviewCreate dbInsertReview
    simp [hsc, htitle, hnodup]
  refine ⟨?_, ?_, ?_, ?_⟩
  · intro h
    have hsf : scoreFieldValid s = false := by
      unfold scoreFieldValid
      rcases h with h | h <;> simp <;> omega
    constructor
    · unfold reviewCreate
      rw [hsf]
      simp
    · unfold reviewUpdateScore
      rw [hsf]
      simp
  · exact ⟨by rw [hcreate 1 (by decide)], by rw [hcreate 10 (by decide)]⟩
  · cases hs : scoreFieldValid s with
    | false =>
      unfold reviewCreate
      rw [hs]
      exact hb
    | true =>
      rw [hcreate s hs]
      unfold allScoresBounded at hb ⊢
      simp only [List.all_cons, Bool.and_eq_true]
      exact ⟨hs, hb⟩
  · cases hs : scoreFieldValid s with
    | false =>
      unfold reviewUpdateScore
      rw [hs]
      exact hb
    | true =>
      unfold reviewUpdateScore
      rw [hs]
      by_cases he : reviewExistsById db rid = true
      · simp only [he, Bool.not_true, Bool.false_eq_true, if_false,
          Bool.not_false, if_true]
        unfold allScoresBounded at hb ⊢
        rw [List.all_eq_true] at hb ⊢
        intro x hx
        simp only [List.mem_map] at hx
        obtain ⟨r, hr, hrx⟩ := hx
        rw [← hrx]
        by_cases hid : (r.id == rid) = true
        · simp [hid, hs]
        · simp only [hid, if_false]
          exact hb r hr
      · rw [Bool.not_eq_true] at he
        simp only [he]
        exact hb

/-- Witness for C6 on a concrete store: score 11 is rejected with the
store unchanged, scores 1 and 10 create successfully, and the
update-path invariant holds. -/
theorem C6_witness :
    reviewCreate dbOneReview 9 1 "x" 11 2 = (400, dbOneReview) ∧
      (reviewCreate dbOneReview 9 1 "x" 1 2).1 = 201 ∧
      (reviewCreate dbOneReview 9 1 "x" 10 2).1 = 201 ∧
      allScoresBounded (reviewUpdateScore dbOneReview 1 11).2 = true := by
  have h := C6_score_validated_in_1_10 dbOneReview 9 1 "x" 11 2 1
    (by decide) (by decide) (by decide)
  exact ⟨(h.1 (Or.inr (by norm_num))).1, h.2.1.1, h.2.1.2, h.2.2.2⟩

end YaMDb
